import Mathlib

/-!
Verification development for the CBUAE-Multibots repository.

The Python sources are shallowly embedded: every pandas dataframe becomes a
list of rows, every scalar column value becomes a Lean value (timestamps and
balances as rationals, labels as strings), and every row-wise operation
becomes a plain function translated from the corresponding Python function.
String helpers (lowercasing, lexicographic comparison, digit parsing) are
defined over the underlying character lists so that they reduce inside the
kernel.
-/

/- ===== generic string helpers (kernel-reducible) ===== -/

/-- Lowercase one ASCII character, as Python str.lower does on ASCII input. -/
def lowerChar (c : Char) : Char :=
  if 65 ≤ c.toNat ∧ c.toNat ≤ 90 then Char.ofNat (c.toNat + 32) else c

/-- Lowercase a string, as the str.lower calls in the sources. -/
def str_lower (s : String) : String := ⟨s.data.map lowerChar⟩

/-- Lexicographic strict comparison on character lists: the semantics of the
Python string operator < by code point. -/
def lexLt : List Char → List Char → Bool
  | [], [] => false
  | [], _ :: _ => true
  | _ :: _, [] => false
  | x :: xs, y :: ys => if x < y then true else if y < x then false else lexLt xs ys

/-- Python string < on two strings (code-point lexicographic). -/
def strLt (a b : String) : Bool := lexLt a.data b.data

/-- Substring test: the semantics of pandas str.contains with a plain
(no metacharacter) pattern. -/
def containsSub (hay needle : String) : Bool :=
  (List.range (hay.data.length + 1)).any fun i => needle.data.isPrefixOf (hay.data.drop i)

/- ===== model of src/3yearsinactivityad.py ===== -/

/-- One row of the accounts dataframe loaded by AccountInactivityChecker,
with the columns the analysis pipeline reads.  The last-transaction
timestamp is a rational number of days on the datetime axis. -/
structure Account where
  account_id : String
  account_type : String
  branch : String
  customer_type : String
  account_balance : ℚ
  last_transaction_date : ℚ
  email_contact_attempt : String
  sms_contact_attempt : String
  phone_call_attempt : String
deriving DecidableEq, Repr

/-- A row of the inactive-accounts dataframe: the account plus the
days_inactive and years_inactive columns added by
identify_inactive_accounts. -/
structure InactiveAccount where
  acct : Account
  days_inactive : ℤ
  years_inactive : ℚ
deriving DecidableEq, Repr

/-- pandas round(2).  For the values produced here (an integer count of days
divided by 365) an exact tie at the third decimal is impossible, because the
reduced denominator divides 73, so round-half-to-even and Mathlib round
agree on every input this pipeline feeds in. -/
def roundTo2 (q : ℚ) : ℚ := (round (q * 100) : ℤ) / 100

/-- The relation used to sort the inactive-accounts dataframe:
days_inactive descending. -/
def daysDesc (x y : InactiveAccount) : Prop := y.days_inactive ≤ x.days_inactive

instance : DecidableRel daysDesc := fun x y => inferInstanceAs (Decidable (_ ≤ _))

/-- AccountInactivityChecker.identify_inactive_accounts: filter the accounts
whose type is in account_types and whose last transaction is strictly before
today minus inactivity_years times 365 days, add days_inactive (the floor of
the elapsed timedelta in days) and years_inactive (days divided by 365,
rounded to 2 decimals), and sort by days_inactive descending. -/
def identify_inactive_accounts (today : ℚ) (inactivity_years : ℚ)
    (account_types : List String) (accounts_df : List Account) : List InactiveAccount :=
  let cutoff_date := today - inactivity_years * 365
  let filtered := accounts_df.filter fun a =>
    account_types.contains a.account_type && decide (a.last_transaction_date < cutoff_date)
  let augmented := filtered.map fun a =>
    let days : ℤ := ⌊today - a.last_transaction_date⌋
    { acct := a, days_inactive := days, years_inactive := roundTo2 ((days : ℚ) / 365) }
  List.insertionSort daysDesc augmented

/-- The inner classifier of categorize_by_inactivity: strict > cascade over
the three thresholds. -/
def determine_category (low_years medium_years high_years years_inactive : ℚ) : String :=
  if years_inactive > high_years then "HIGH"
  else if years_inactive > medium_years then "MEDIUM"
  else if years_inactive > low_years then "LOW"
  else "MONITOR"

/-- The inner contact classifier of categorize_by_inactivity: count the
contact-attempt flags that equal the exact string Yes, sequentially as in the
source, then map the count to a tier. -/
def determine_contact_status (email sms phone : String) : String :=
  let a1 : ℕ := if email = "Yes" then 1 else 0
  let a2 : ℕ := if sms = "Yes" then a1 + 1 else a1
  let a3 : ℕ := if phone = "Yes" then a2 + 1 else a2
  if a3 = 0 then "No Contact"
  else if a3 < 3 then "Partial Contact"
  else "Full Contact"

/-- The inner amount classifier of categorize_by_inactivity. -/
def determine_amount (balance : ℚ) : String :=
  if balance > 300000 then "HIGH"
  else if balance > 100000 then "MEDIUM"
  else "LOW"

/-- A row of the categorized dataframe: the inactive-accounts row plus the
three added columns. -/
structure CatRow where
  base : InactiveAccount
  inactivity_category : String
  contact_status : String
  amount_category : String
deriving DecidableEq, Repr

/-- AccountInactivityChecker.categorize_by_inactivity: when the
inactive-accounts dataframe is missing or empty the method warns and returns
None, otherwise it applies the three per-row classifiers and returns the
augmented rows.  No validation of the threshold ordering is performed. -/
def categorize_by_inactivity (low_years medium_years high_years : ℚ)
    (inactive_accounts : List InactiveAccount) : Option (List CatRow) :=
  if inactive_accounts.isEmpty then none
  else some (inactive_accounts.map fun r =>
    { base := r
      inactivity_category := determine_category low_years medium_years high_years r.years_inactive
      contact_status := determine_contact_status r.acct.email_contact_attempt
        r.acct.sms_contact_attempt r.acct.phone_call_attempt
      amount_category := determine_amount r.acct.account_balance })

/-- The first filter block of the data-table tab in main: the account type,
branch and customer type multiselects are applied unconditionally with isin. -/
def base_table_filter (rows : List CatRow)
    (account_type_filter branch_filter customer_type_filter : List String) : List CatRow :=
  rows.filter fun r =>
    account_type_filter.contains r.base.acct.account_type &&
    branch_filter.contains r.base.acct.branch &&
    customer_type_filter.contains r.base.acct.customer_type

/-- The full filter block of the data-table tab in main: after the three
unconditional isin filters, the inactivity-category and amount-category
filters are each applied only when the selected list is truthy, i.e. only
when it is non-empty. -/
def apply_table_filters (rows : List CatRow)
    (account_type_filter branch_filter customer_type_filter : List String)
    (category_filter amount_filter : List String) : List CatRow :=
  let filtered_df := base_table_filter rows account_type_filter branch_filter customer_type_filter
  let filtered_df2 :=
    if category_filter.isEmpty then filtered_df
    else filtered_df.filter fun r => category_filter.contains r.inactivity_category
  if amount_filter.isEmpty then filtered_df2
  else filtered_df2.filter fun r => amount_filter.contains r.amount_category

/-- Numeric rank of the inactivity tiers, MONITOR < LOW < MEDIUM < HIGH. -/
def tier_rank (s : String) : ℕ :=
  if s = "HIGH" then 3 else if s = "MEDIUM" then 2 else if s = "LOW" then 1 else 0

/- ===== model of src/dormantacctransfer.py ===== -/

/-- A calendar date as produced by datetime.strptime with the primary
format. -/
structure TxDate where
  year : ℕ
  month : ℕ
  day : ℕ
deriving DecidableEq, Repr

/-- Python datetime ordering restricted to dates: lexicographic on
(year, month, day). -/
def dateLE (a b : TxDate) : Bool :=
  (a.year < b.year) ||
  (a.year == b.year && (a.month < b.month ||
    (a.month == b.month && a.day ≤ b.day)))

/-- Leap-year rule used by the proleptic Gregorian calendar of datetime. -/
def is_leap (y : ℕ) : Bool := y % 4 == 0 && (y % 100 != 0 || y % 400 == 0)

/-- Days in a month of the datetime calendar. -/
def days_in_month (y m : ℕ) : ℕ :=
  if m == 2 then (if is_leap y then 29 else 28)
  else if m == 4 || m == 6 || m == 9 || m == 11 then 30
  else 31

/-- Parse a nonempty all-digit character list as a natural number. -/
def parseNatDigits (l : List Char) : Option ℕ :=
  if l.isEmpty then none else
  l.foldl (fun acc c =>
    match acc with
    | some n => if 48 ≤ c.toNat ∧ c.toNat ≤ 57 then some (n * 10 + (c.toNat - 48)) else none
    | none => none) (some 0)

/-- Split a character list at every occurrence of a separator character,
as the Python split method with a one-character separator. -/
def splitOnChar (sep : Char) : List Char → List (List Char)
  | [] => [[]]
  | x :: xs =>
    let rest := splitOnChar sep xs
    if x == sep then [] :: rest
    else match rest with
      | [] => [[x]]
      | h :: t => (x :: h) :: t

/-- datetime.strptime with format %Y-%m-%d: three dash-separated digit
groups (year at most 4 digits, month and day at most 2), with the range
validation strptime performs — month 1..12, day 1..days_in_month, year at
least MINYEAR = 1.  Returns none exactly when strptime raises ValueError. -/
def parse_ymd (s : String) : Option TxDate :=
  match (splitOnChar (Char.ofNat 45) s.data).map parseNatDigits with
  | [some y, some m, some d] =>
    if (splitOnChar (Char.ofNat 45) s.data).all (fun g => g.length ≤ 4) ∧
       ((splitOnChar (Char.ofNat 45) s.data).drop 1).all (fun g => g.length ≤ 2) ∧
       1 ≤ y ∧ 1 ≤ m ∧ m ≤ 12 ∧ 1 ≤ d ∧ d ≤ days_in_month y m
    then some ⟨y, m, d⟩ else none
  | _ => none

/-- clean_date from dormantacctransfer: trim everything from the first T
character on, then parse with the primary format; any parse failure is
mapped to None for that row instead of raising. -/
def clean_date (date_string : String) : Option TxDate :=
  parse_ymd ⟨date_string.data.takeWhile (fun c => c ≠ 'T')⟩

/-- The row-wise application of clean_date to the whole date column,
df.apply(clean_date): one output per input row, never aborting. -/
def apply_clean_dates (dates : List String) : List (Option TxDate) :=
  dates.map clean_date

/-- The fixed transfer cutoff datetime.strptime of 2020-04-24. -/
def transfer_cutoff : TxDate := ⟨2020, 4, 24⟩

/-- check_transfer_eligibility: eligible exactly when the cleaned date is
truthy (not None) and less than or equal to the cutoff. -/
def check_transfer_eligibility (last_transaction_date : Option TxDate) : String :=
  match last_transaction_date with
  | some d => if dateLE d transfer_cutoff then "Eligible for Transfer" else "Not Eligible"
  | none => "Not Eligible"

/- ===== model of load_account_data in src/3yearsinactivityad.py ===== -/

/-- load_account_data converts the whole date column with pd.to_datetime
under the default errors=raise policy inside a try block: if any single
value fails to parse the exception is caught, an error is shown and the
method returns False, so no rows at all are produced.  The column parse is
modelled with the primary-format parser. -/
def load_account_data : List String → Option (List TxDate)
  | [] => some []
  | d :: ds =>
    match parse_ymd d, load_account_data ds with
    | some x, some xs => some (x :: xs)
    | _, _ => none

/- ===== model of src/freezeaccount.py ===== -/

/-- freeze_account: the three freeze conditions, evaluated on the raw CSV
strings — the date is compared as a Python string with strict < against the
literal 2022-01-01. -/
def freeze_account (account_status transaction_date kyc_status : String) : String :=
  if account_status = "Dormant" ∧ strLt transaction_date "2022-01-01" = true ∧ kyc_status = "Expired"
  then "Frozen"
  else "Active"

/- ===== model of src/investment_inactivity.py and src/inactive_account.py ===== -/

/-- A row of the dataframe read by the investment and inactive-account bots:
the last-transaction value is None when pd.to_datetime with errors=coerce
produced NaT for that row.  Timestamps are rationals on the datetime axis,
as in the Account model. -/
structure InvRow where
  account_type : String
  last_transaction_date : Option ℚ
  email_contact_attempt : String
  sms_contact_attempt : String
  phone_call_attempt : String
  account_status : String
deriving DecidableEq, Repr

/-- A NaT-aware strict comparison: pandas evaluates NaT < t as False, so a
row with an unknown date never passes a less-than filter. -/
def optLt (d : Option ℚ) (t : ℚ) : Bool :=
  match d with
  | some v => decide (v < t)
  | none => false

/-- The violations filter of investment_inactivity: keep the rows whose
account type contains Investment case-insensitively, whose last transaction
is strictly before the threshold, and whose three contact flags lower to
no. -/
def violations (threshold_date : ℚ) (df : List InvRow) : List InvRow :=
  let investment_df := df.filter fun r => containsSub (str_lower r.account_type) (str_lower "Investment")
  investment_df.filter fun r =>
    optLt r.last_transaction_date threshold_date &&
    str_lower r.email_contact_attempt == "no" &&
    str_lower r.sms_contact_attempt == "no" &&
    str_lower r.phone_call_attempt == "no"

/-- The inactive_investments filter of inactive_account: identical shape to
the violations filter of investment_inactivity. -/
def inactive_investments (threshold_date : ℚ) (df : List InvRow) : List InvRow :=
  let investment_df := df.filter fun r => containsSub (str_lower r.account_type) (str_lower "Investment")
  investment_df.filter fun r =>
    optLt r.last_transaction_date threshold_date &&
    str_lower r.email_contact_attempt == "no" &&
    str_lower r.sms_contact_attempt == "no" &&
    str_lower r.phone_call_attempt == "no"

/- ===== model of the account-details filters of src/fdinactivity.py ===== -/

/-- A row of the fdinactivity dataframe with the columns its account-details
filter block reads. -/
structure FDRow where
  account_type : String
  branch : String
  maturity_status : String
deriving DecidableEq, Repr

/-- The account-details filter block of fdinactivity: restrict to Fixed
Deposit rows, then apply the maturity-status and branch multiselects, each
only when the selected list is truthy, i.e. non-empty. -/
def fd_filter_accounts (rows : List FDRow) (status_filter branch_filter : List String) : List FDRow :=
  let fd_accounts := rows.filter fun r => r.account_type == "Fixed Deposit"
  let fd_accounts2 :=
    if status_filter.isEmpty then fd_accounts
    else fd_accounts.filter fun r => status_filter.contains r.maturity_status
  if branch_filter.isEmpty then fd_accounts2
  else fd_accounts2.filter fun r => branch_filter.contains r.branch

/- ===== sample rows used by concrete counterexamples ===== -/

/-- A concrete account row with all contact flags No and a small balance. -/
def sample_account : Account :=
  { account_id := "ACC0001", account_type := "Savings/Call/Current", branch := "Main Branch",
    customer_type := "Individual", account_balance := 5000, last_transaction_date := 100,
    email_contact_attempt := "No", sms_contact_attempt := "No", phone_call_attempt := "No" }

/-- A concrete inactive-accounts row, four years inactive. -/
def sample_inactive : InactiveAccount :=
  { acct := sample_account, days_inactive := 1460, years_inactive := 4 }

/- ===== helper lemmas ===== -/

/-- Numeric characterization of the tier cascade. -/
lemma tier_rank_determine_category (l m h E : ℚ) :
    tier_rank (determine_category l m h E) =
      if h < E then 3 else if m < E then 2 else if l < E then 1 else 0 := by
  unfold determine_category
  split_ifs with h1 h2 h3 <;> simp [tier_rank]

/- ===== claims ===== -/

/-- Claim C1: with ascending thresholds the tier cascade uses strict
comparisons, so a value exactly at a threshold falls into the lower tier:
with thresholds (3,4,5) the value 4.0 is LOW and 4.0001 is MEDIUM, and in
general the tier is HIGH iff E > high, MEDIUM iff E > medium (and not
above high), LOW iff E > low (and not above medium), else MONITOR; and the
pipeline feeds exactly each row years_inactive value to this classifier. -/
theorem claim_C1_tier_boundary (l m h : ℚ) (hlm : l < m) (hmh : m < h) :
    determine_category 3 4 5 4 = "LOW" ∧
    determine_category 3 4 5 (40001 / 10000) = "MEDIUM" ∧
    (∀ E : ℚ,
      (determine_category l m h E = "HIGH" ↔ h < E) ∧
      (determine_category l m h E = "MEDIUM" ↔ m < E ∧ E ≤ h) ∧
      (determine_category l m h E = "LOW" ↔ l < E ∧ E ≤ m) ∧
      (determine_category l m h E = "MONITOR" ↔ E ≤ l)) ∧
    (∀ inactive out, categorize_by_inactivity l m h inactive = some out →
      List.map (fun c => c.inactivity_category) out =
        List.map (fun r => determine_category l m h r.years_inactive) inactive) := by
  refine ⟨by norm_num [determine_category], by norm_num [determine_category], ?_, ?_⟩
  · intro E
    unfold determine_category
    split_ifs with hH hM hL <;>
      refine ⟨?_, ?_, ?_, ?_⟩ <;>
      simp_all <;>
      (intros; linarith)
  · intro inactive out hout
    unfold categorize_by_inactivity at hout
    split at hout
    · exact absurd hout (by simp)
    · rw [Option.some_inj] at hout
      subst hout
      simp [List.map_map]

/-- Witness for claim C1 at thresholds (3,4,5). -/
theorem claim_C1_tier_boundary_witness :
    determine_category 3 4 5 4 = "LOW" ∧ determine_category 3 4 5 (40001 / 10000) = "MEDIUM" :=
  ⟨(claim_C1_tier_boundary 3 4 5 (by decide) (by decide)).1,
   (claim_C1_tier_boundary 3 4 5 (by decide) (by decide)).2.1⟩

/-- Claim C2 counterexample: with thresholds low = 5, medium = 4, high = 3
(so low ≥ medium and medium ≥ high) the classification operation does not
reject or flag the configuration: it runs the classifier and returns tier
labels. -/
theorem claim_C2_counterexample :
    ¬ ((5 : ℚ) < 4) ∧
    categorize_by_inactivity 5 4 3 [sample_inactive] =
      some [{ base := sample_inactive, inactivity_category := "HIGH",
              contact_status := "No Contact", amount_category := "LOW" }] := by
  exact ⟨by decide, by decide⟩

/-- Claim C2 amended: categorize_by_inactivity performs no threshold-order
validation at all; it returns None exactly when the inactive-accounts input
is empty, and for every threshold triple, ordered or not, a non-empty input
produces tier labels. -/
theorem claim_C2_amended (l m h : ℚ) (inactive : List InactiveAccount) :
    categorize_by_inactivity l m h inactive = none ↔ inactive = [] := by
  unfold categorize_by_inactivity
  cases inactive <;> simp

/-- Claim C3 counterexample: the contact flags are compared with the exact
string Yes, case-sensitively, so the value yes is not counted: a row with
all three flags equal to yes is classified No Contact, not Full Contact as
the case-insensitive claim requires. -/
theorem claim_C3_counterexample :
    determine_contact_status "yes" "yes" "yes" = "No Contact" ∧
    determine_contact_status "Yes" "Yes" "Yes" = "Full Contact" ∧
    ("No Contact" : String) ≠ "Full Contact" := by decide

/-- The contact-coverage mapping as the amended claim words it: the count of
flags equal to the exact string Yes (case-sensitive) maps through
0 to No Contact, 1 or 2 to Partial Contact, 3 to Full Contact. -/
def count_yes_flags (email sms phone : String) : ℕ :=
  (if email = "Yes" then 1 else 0) + (if sms = "Yes" then 1 else 0) +
    (if phone = "Yes" then 1 else 0)

/-- Tier of a contact-attempt count, as the amended claim words it. -/
def contact_tier_of_count (n : ℕ) : String :=
  if n = 0 then "No Contact" else if n < 3 then "Partial Contact" else "Full Contact"

/-- Claim C3 amended: for every row the contact tier equals the mapping of
the count of flags equal to the exact string Yes compared case-sensitively
(0 to No Contact, 1 or 2 to Partial Contact, 3 to Full Contact); a
lowercase yes flag is not counted. -/
theorem claim_C3_amended (email sms phone : String) :
    determine_contact_status email sms phone =
      contact_tier_of_count (count_yes_flags email sms phone) ∧
    determine_contact_status "yes" "No" "No" = "No Contact" ∧
    determine_contact_status "Yes" "No" "No" = "Partial Contact" := by
  refine ⟨?_, by decide, by decide⟩
  unfold determine_contact_status count_yes_flags contact_tier_of_count
  by_cases he : email = "Yes" <;> by_cases hs : sms = "Yes" <;> by_cases hp : phone = "Yes" <;>
    simp [he, hs, hp]

/-- Claim C9: for every elapsed value and every ascending threshold triple
the tier cascade is total over MONITOR, LOW, MEDIUM, HIGH, and is monotonic
non-decreasing in the elapsed value with respect to the rank
MONITOR < LOW < MEDIUM < HIGH. -/
theorem claim_C9_tier_total_monotone (l m h : ℚ) (hlm : l < m) (hmh : m < h) :
    (∀ E : ℚ, determine_category l m h E = "MONITOR" ∨ determine_category l m h E = "LOW" ∨
      determine_category l m h E = "MEDIUM" ∨ determine_category l m h E = "HIGH") ∧
    (∀ E1 E2 : ℚ, E1 ≤ E2 →
      tier_rank (determine_category l m h E1) ≤ tier_rank (determine_category l m h E2)) := by
  constructor
  · intro E
    unfold determine_category
    split_ifs <;> simp
  · intro E1 E2 hE
    rw [tier_rank_determine_category, tier_rank_determine_category]
    split_ifs <;> linarith

/-- Witness for claim C9 at thresholds (3,4,5) and elapsed values 2 and 10. -/
theorem claim_C9_tier_total_monotone_witness :
    tier_rank (determine_category 3 4 5 2) ≤ tier_rank (determine_category 3 4 5 10) :=
  (claim_C9_tier_total_monotone 3 4 5 (by decide) (by decide)).2 2 10 (by decide)

/-- Claim C4: transfer eligibility holds exactly for known dates less than
or equal to the fixed cutoff 2020-04-24 (inclusive): the cutoff day itself
is eligible, the next day is not, and an unknown (None or unparseable) date
is not. -/
theorem claim_C4_transfer_cutoff :
    check_transfer_eligibility (some ⟨2020, 4, 24⟩) = "Eligible for Transfer" ∧
    check_transfer_eligibility (some ⟨2020, 4, 25⟩) = "Not Eligible" ∧
    check_transfer_eligibility none = "Not Eligible" ∧
    check_transfer_eligibility (clean_date "not-a-date") = "Not Eligible" ∧
    (∀ d : TxDate, check_transfer_eligibility (some d) = "Eligible for Transfer" ↔
      dateLE d transfer_cutoff = true) := by
  refine ⟨by decide, by decide, rfl, by decide, ?_⟩
  intro d
  simp only [check_transfer_eligibility]
  split_ifs with hd <;> simp [hd]

/-- Claim C5: a row whose last-transaction date is unknown (NaT after
coercion, modelled as None) never appears in the inactivity violation
result sets: the NaT-aware strict comparison is false on unknown dates, so
both the investment_inactivity filter and the inactive_account filter keep
only rows with a known date. -/
theorem claim_C5_unknown_dates_excluded (threshold : ℚ) (df : List InvRow) :
    ((violations threshold df).all fun r => r.last_transaction_date.isSome) = true ∧
    ((inactive_investments threshold df).all fun r => r.last_transaction_date.isSome) = true := by
  refine ⟨?_, ?_⟩
  · rw [List.all_eq_true]
    intro r hr
    simp only [violations, List.mem_filter, Bool.and_eq_true] at hr
    obtain ⟨⟨-, -⟩, ⟨⟨⟨hlt, -⟩, -⟩, -⟩⟩ := hr
    cases hod : r.last_transaction_date with
    | none => rw [hod] at hlt; simp [optLt] at hlt
    | some v => simp [hod]
  · rw [List.all_eq_true]
    intro r hr
    simp only [inactive_investments, List.mem_filter, Bool.and_eq_true] at hr
    obtain ⟨⟨-, -⟩, ⟨⟨⟨hlt, -⟩, -⟩, -⟩⟩ := hr
    cases hod : r.last_transaction_date with
    | none => rw [hod] at hlt; simp [optLt] at hlt
    | some v => simp [hod]

/-- A concrete categorized row that passes every unconditional filter of the
sample scenario. -/
def sample_cat : CatRow :=
  { base := sample_inactive, inactivity_category := "LOW",
    contact_status := "No Contact", amount_category := "LOW" }

/-- Claim C6 counterexample: with empty inactivity-category and
amount-category selections the filtering step returns the full input row
set, not the empty one — the truthiness guard skips a falsy (empty)
multiselect instead of selecting nothing. -/
theorem claim_C6_counterexample :
    apply_table_filters [sample_cat] ["Savings/Call/Current"] ["Main Branch"] ["Individual"]
      [] [] = [sample_cat] ∧
    [sample_cat] ≠ ([] : List CatRow) := by decide

/-- Claim C6 amended: the three unconditional multiselects (account type,
branch, customer type) do treat an empty selection as select-nothing and
return the empty row set; but the guarded multiselects (inactivity
category, amount category, and the maturity-status and branch filters of
fdinactivity) are skipped when the selection is empty, leaving the row set
unfiltered. -/
theorem claim_C6_amended :
    (∀ rows b c cat amt, apply_table_filters rows [] b c cat amt = []) ∧
    (∀ rows a c cat amt, apply_table_filters rows a [] c cat amt = []) ∧
    (∀ rows a b cat amt, apply_table_filters rows a b [] cat amt = []) ∧
    (∀ rows a b c, apply_table_filters rows a b c [] [] = base_table_filter rows a b c) ∧
    (∀ rows, fd_filter_accounts rows [] [] =
      rows.filter fun r => r.account_type == "Fixed Deposit") := by
  refine ⟨?_, ?_, ?_, ?_, ?_⟩ <;> intros <;>
    simp [apply_table_filters, base_table_filter, fd_filter_accounts]

/-- Claim C7 counterexample: the freeze predicate compares the
last-transaction string with strict <, so a row whose date equals the
cutoff 2022-01-01 exactly, with the other two conditions satisfied, is
Active, not Frozen as the inclusive-cutoff claim requires. -/
theorem claim_C7_counterexample :
    freeze_account "Dormant" "2022-01-01" "Expired" = "Active" ∧
    ("Active" : String) ≠ "Frozen" := by decide

/-- Claim C7 amended: the freeze predicate is the conjunction of the three
independently-evaluated sub-conditions — status equals Dormant, date
strictly below the cutoff string 2022-01-01, KYC equals Expired — returning
Frozen when all three hold and Active otherwise; a date strictly before the
cutoff with the other two conditions satisfied is Frozen. -/
theorem claim_C7_amended (account_status transaction_date kyc_status : String) :
    (freeze_account account_status transaction_date kyc_status = "Frozen" ↔
      account_status = "Dormant" ∧ strLt transaction_date "2022-01-01" = true ∧
        kyc_status = "Expired") ∧
    (freeze_account account_status transaction_date kyc_status = "Active" ↔
      ¬ (account_status = "Dormant" ∧ strLt transaction_date "2022-01-01" = true ∧
        kyc_status = "Expired")) ∧
    freeze_account "Dormant" "2021-12-31" "Expired" = "Frozen" := by
  refine ⟨?_, ?_, by decide⟩ <;>
  · unfold freeze_account
    split_ifs with hc <;> simp [hc]

/-- Claim C8 counterexample: in load_account_data the whole date column is
converted at once under the default raise-on-error policy, so one
unparseable value aborts the load and no rows at all are produced, even
though the other row parses fine. -/
theorem claim_C8_counterexample :
    parse_ymd "2020-01-01" = some ⟨2020, 1, 1⟩ ∧
    load_account_data ["2020-01-01", "not-a-date"] = none := by decide

/-- Claim C8 amended: the clean_date ingestion of dormantacctransfer does
behave as claimed — an unparseable value becomes None for that row only and
every row is still produced — but the load_account_data ingestion of
3yearsinactivityad aborts on the first unparseable value: it returns no
rows exactly when some value of the column fails to parse. -/
theorem claim_C8_amended :
    (∀ dates : List String, (apply_clean_dates dates).length = dates.length) ∧
    apply_clean_dates ["2020-04-24T10:00:00", "not-a-date", "2021-02-03"] =
      [some ⟨2020, 4, 24⟩, none, some ⟨2021, 2, 3⟩] ∧
    (∀ dates : List String, load_account_data dates = none ↔
      (dates.any fun s => (parse_ymd s).isNone) = true) := by
  refine ⟨?_, by decide, ?_⟩
  · intro dates
    exact List.length_map _ _
  · intro dates
    induction dates with
    | nil => simp [load_account_data]
    | cons d ds ih =>
      cases hd : parse_ymd d with
      | none => simp [load_account_data, hd]
      | some v =>
        cases hm : load_account_data ds with
        | none =>
          have hds : (ds.any fun s => (parse_ymd s).isNone) = true := ih.mp hm
          simp [load_account_data, hd, hm, hds]
        | some vs =>
          have hds : ¬ (ds.any fun s => (parse_ymd s).isNone) = true := by
            rw [← ih]; simp [hm]
          simp [load_account_data, hd, hm, hds]

/-- The descending-sort relation is total. -/
instance : IsTotal InactiveAccount daysDesc :=
  ⟨fun a b => le_total b.days_inactive a.days_inactive⟩

/-- The descending-sort relation is transitive. -/
instance : IsTrans InactiveAccount daysDesc :=
  ⟨fun _ _ _ hab hbc => le_trans hbc hab⟩

/-- Claim C10: every row returned by identify_inactive_accounts has its
account type in the requested set and its last transaction strictly before
the reference date minus inactivity_years times 365 days, and the returned
rows are sorted by days_inactive in descending order. -/
theorem claim_C10_identify_sound_sorted (today inactivity_years : ℚ)
    (account_types : List String) (accounts_df : List Account) :
    ((identify_inactive_accounts today inactivity_years account_types accounts_df).all fun r =>
      account_types.contains r.acct.account_type &&
      decide (r.acct.last_transaction_date < today - inactivity_years * 365)) = true ∧
    List.Sorted daysDesc (identify_inactive_accounts today inactivity_years account_types accounts_df) := by
  constructor
  · rw [List.all_eq_true]
    intro r hr
    simp only [identify_inactive_accounts] at hr
    rw [(List.perm_insertionSort daysDesc _).mem_iff] at hr
    simp only [List.mem_map, List.mem_filter] at hr
    obtain ⟨a, ⟨-, hpa⟩, rfl⟩ := hr
    simpa using hpa
  · unfold identify_inactive_accounts
    exact List.sorted_insertionSort daysDesc _
